import Mathlib

/-!
Shallow embedding of `src/client/veldera/src/vehicle/analyze_telemetry.py`.

The script loads a telemetry CSV into a polars DataFrame whose rows carry the
numeric columns `t, altitude, v_vel, speed, hover_mag, grounded, pitch_deg,
mass`, runs four row-filtering detectors over it, and prints reports.  Here a
DataFrame is a column-name list together with a list of rows; float values are
modelled as rationals; a print statement is modelled as an abstract output
event carrying the numbers it formats; a Python exception is modelled by an
`Option` result (`none` = the call raises).
-/

/-- One telemetry sample: the named numeric columns of the loaded CSV
(data model of the script; every reporter reads exactly these fields). -/
structure Row where
  t : ℚ
  altitude : ℚ
  v_vel : ℚ
  speed : ℚ
  hover_mag : ℚ
  grounded : ℚ
  pitch_deg : ℚ
  mass : ℚ
deriving DecidableEq

/-- The column header of a loaded telemetry file. -/
def telemetry_columns : List String :=
  ["t", "altitude", "v_vel", "speed", "hover_mag", "grounded", "pitch_deg", "mass"]

/-- A polars DataFrame: its column names and its rows in order. -/
structure DataFrame where
  columns : List String
  rows : List Row
deriving DecidableEq

/-- `df.filter(expr)`: keeps the rows whose boolean mask is true, preserving
row order and the column list. -/
def DataFrame.filter (df : DataFrame) (p : Row → Bool) : DataFrame :=
  ⟨df.columns, df.rows.filter p⟩

/-- `df.select(cols)`: restricts the printed frame to the given columns. -/
def DataFrame.select (df : DataFrame) (cols : List String) : DataFrame :=
  ⟨cols, df.rows⟩

/-- A row of the frame produced by `find_launches`: the original row plus the
derived `v_vel_delta` column (`null` on the first row, as polars `diff`). -/
structure LaunchRow where
  base : Row
  v_vel_delta : Option ℚ
deriving DecidableEq

/-- The frame produced by `find_launches` (one extra column). -/
structure LaunchFrame where
  columns : List String
  rows : List LaunchRow
deriving DecidableEq

/-- `pl.col("v_vel").diff()`: pairs each row with `v_vel[i] - v_vel[i-1]`,
`null` for the first row; `prev` carries the previous v_vel value. -/
def diff_column : Option ℚ → List Row → List LaunchRow
  | _, [] => []
  | prev, r :: rs => ⟨r, prev.map (fun p => r.v_vel - p)⟩ :: diff_column (some r.v_vel) rs

/-- `df.with_columns(pl.col("v_vel").diff().alias("v_vel_delta"))`: appends the
derived column (polars replaces it in place if the name already exists). -/
def with_v_vel_delta (df : DataFrame) : LaunchFrame :=
  ⟨if "v_vel_delta" ∈ df.columns then df.columns else df.columns ++ ["v_vel_delta"],
   diff_column none df.rows⟩

/-- Comparison of a nullable column with a constant: a `null` entry yields a
`null` mask entry, which `filter` drops. -/
def null_gt (x : Option ℚ) (k : ℚ) : Bool :=
  match x with
  | none => false
  | some v => decide (v > k)

/-- Default `v_vel_threshold` of `find_launches` in the source. -/
def find_launches_default_threshold : ℚ := 10.0

/-- Default `v_vel_threshold` of `find_high_velocity` in the source. -/
def find_high_velocity_default_threshold : ℚ := 15.0

/-- Default `ratio_threshold` of `find_force_spikes` in the source. -/
def find_force_spikes_default_ratio : ℚ := 3.0

/-- Default `window` of `get_context` in the source. -/
def get_context_default_window : ℚ := 0.5

/-- `find_launches(df, v_vel_threshold)`: adds the `v_vel_delta` diff column
and keeps rows with `v_vel_delta > v_vel_threshold`. -/
def find_launches (df : DataFrame) (v_vel_threshold : ℚ) : LaunchFrame :=
  let aug := with_v_vel_delta df
  ⟨aug.columns, aug.rows.filter (fun r => null_gt r.v_vel_delta v_vel_threshold)⟩

/-- `find_high_velocity(df, v_vel_threshold)`: keeps rows with
`v_vel > v_vel_threshold`. -/
def find_high_velocity (df : DataFrame) (v_vel_threshold : ℚ) : DataFrame :=
  df.filter (fun r => decide (r.v_vel > v_vel_threshold))

/-- `find_force_spikes(df, weight, ratio_threshold)`: keeps rows with
`hover_mag > weight * ratio_threshold`. -/
def find_force_spikes (df : DataFrame) (weight : ℚ) (ratio_threshold : ℚ) : DataFrame :=
  df.filter (fun r => decide (r.hover_mag > weight * ratio_threshold))

/-- `get_context(df, time, window)`: keeps rows with
`time - window <= t <= time + window`. -/
def get_context (df : DataFrame) (time : ℚ) (window : ℚ) : DataFrame :=
  df.filter (fun r => decide (r.t ≥ time - window) && decide (r.t ≤ time + window))

/-- `df.filter(pl.col("altitude") > 0)` in `print_summary` (the rows whose
altitude statistics are reported). -/
def valid_alt (df : DataFrame) : DataFrame :=
  df.filter (fun r => decide (r.altitude > 0))

/-- `df.filter(pl.col("altitude") < 0)` in `print_summary` (the rows counted
as "no raycast hit"). -/
def no_raycast (df : DataFrame) : DataFrame :=
  df.filter (fun r => decide (r.altitude < 0))

/-- `df.filter(pl.col("grounded") == 1)` in `print_summary`. -/
def grounded_rows (df : DataFrame) : DataFrame :=
  df.filter (fun r => decide (r.grounded = 1))

/-- `df["mass"].item(-1)`: the mass field of the last row (the caller matched
the rows against `r :: rest`, so the list is non-empty). -/
def last_mass : Row → List Row → ℚ
  | r, [] => r.mass
  | _, s :: ss => last_mass s ss

/-- `series.min()` over a non-empty column given as head and tail. -/
def series_min (x : ℚ) (xs : List ℚ) : ℚ := xs.foldl min x

/-- `series.max()` over a non-empty column given as head and tail. -/
def series_max (x : ℚ) (xs : List ℚ) : ℚ := xs.foldl max x

/-- `series.mean()` over a non-empty column. -/
def series_mean (xs : List ℚ) : ℚ := xs.sum / xs.length

/-- One print statement of `print_summary`, carrying the numbers it formats. -/
inductive SummaryOut where
  | banner
  | timeRange (t_min t_max span : ℚ)
  | sampleCount (n : ℕ)
  | massLine (mass : ℚ)
  | weightLine (weight : ℚ)
  | altitudeHeader
  | altitudeStats (lo hi avg : ℚ)
  | noRaycastLine (count : ℕ) (pct : ℚ)
  | velocityHeader
  | maxSpeedLine (ms kmh : ℚ)
  | maxVvelLine (v : ℚ)
  | minVvelLine (v : ℚ)
  | forcesHeader
  | maxHoverLine (f : ℚ)
  | maxHoverRatioLine (x : ℚ)
  | meanHoverGroundedLine (f : ℚ)
  | groundedHeader
  | groundedPctLine (pct : ℚ)
  | problemHeader
  | highVelocityLine (count : ℕ) (first_t first_v_vel first_alt : ℚ)
  | forceSpikesLine (count : ℕ) (first_t first_force ratio : ℚ)
  | velocitySpikesLine (count : ℕ)
deriving DecidableEq

/-- `print_summary(df)`.  `none` models the exceptions the Python code can
raise before finishing: `df["mass"].item(-1)` on an empty frame, formatting
the `None` mean of `hover_mag` over grounded rows when no row is grounded,
and the float division by a zero weight in the `Max hover/weight` line. -/
def print_summary (df : DataFrame) : Option (List SummaryOut) :=
  match df.rows, (grounded_rows df).rows with
  | [], _ => none
  | _ :: _, [] => none
  | r0 :: rest, g0 :: gs =>
    if last_mass r0 rest = 0 then none
    else
      let mass := last_mass r0 rest
      let weight := mass * 9.81
      let t_min := series_min r0.t (rest.map Row.t)
      let t_max := series_max r0.t (rest.map Row.t)
      let altStats : List SummaryOut :=
        match (valid_alt df).rows with
        | [] => []
        | a0 :: as2 =>
          [SummaryOut.altitudeStats (series_min a0.altitude (as2.map Row.altitude))
            (series_max a0.altitude (as2.map Row.altitude))
            (series_mean ((a0 :: as2).map Row.altitude))]
      let nr := (no_raycast df).rows
      let max_speed := series_max r0.speed (rest.map Row.speed)
      let max_hover := series_max r0.hover_mag (rest.map Row.hover_mag)
      let high_vvel := (find_high_velocity df 15.0).rows
      let highLines : List SummaryOut :=
        match high_vvel with
        | [] => []
        | f :: _ => [SummaryOut.highVelocityLine high_vvel.length f.t f.v_vel f.altitude]
      let force_spikes := (find_force_spikes df weight 5.0).rows
      let forceLines : List SummaryOut :=
        match force_spikes with
        | [] => []
        | f :: _ =>
          [SummaryOut.forceSpikesLine force_spikes.length f.t f.hover_mag (f.hover_mag / weight)]
      let launches := (find_launches df 10.0).rows
      let launchLines : List SummaryOut :=
        match launches with
        | [] => []
        | _ :: _ => [SummaryOut.velocitySpikesLine launches.length]
      some ([SummaryOut.banner,
        SummaryOut.timeRange t_min t_max (t_max - t_min),
        SummaryOut.sampleCount (r0 :: rest).length,
        SummaryOut.massLine mass,
        SummaryOut.weightLine weight,
        SummaryOut.altitudeHeader] ++ altStats ++
        [SummaryOut.noRaycastLine nr.length ((nr.length : ℚ) / ((r0 :: rest).length : ℚ) * 100),
        SummaryOut.velocityHeader,
        SummaryOut.maxSpeedLine max_speed (max_speed * 3.6),
        SummaryOut.maxVvelLine (series_max r0.v_vel (rest.map Row.v_vel)),
        SummaryOut.minVvelLine (series_min r0.v_vel (rest.map Row.v_vel)),
        SummaryOut.forcesHeader,
        SummaryOut.maxHoverLine max_hover,
        SummaryOut.maxHoverRatioLine (max_hover / weight),
        SummaryOut.meanHoverGroundedLine (series_mean ((g0 :: gs).map Row.hover_mag)),
        SummaryOut.groundedHeader,
        SummaryOut.groundedPctLine (((g0 :: gs).length : ℚ) / ((r0 :: rest).length : ℚ) * 100),
        SummaryOut.problemHeader] ++ highLines ++ forceLines ++ launchLines)

/-- One print statement of `print_around_time`. -/
inductive AroundOut where
  | noData (time : ℚ)
  | header (time window : ℚ)
  | tableOut (df : DataFrame)
deriving DecidableEq

/-- The fixed preferred column list of `print_around_time`. -/
def around_preferred_cols : List String :=
  ["t", "altitude", "v_vel", "grounded", "hover_mag", "pitch_deg", "speed"]

/-- `print_around_time(df, time, window)`: prints the context rows around
`time`, restricted to the preferred columns the frame actually has, or a
"No data found around t=..." message when the window is empty. -/
def print_around_time (df : DataFrame) (time : ℚ) (window : ℚ) : List AroundOut :=
  let context := get_context df time window
  if context.rows.length = 0 then [AroundOut.noData time]
  else
    let available := around_preferred_cols.filter (fun c => decide (c ∈ context.columns))
    [AroundOut.header time window, AroundOut.tableOut (context.select available)]

/-- One print statement of `print_problem_context`. -/
inductive CtxOut where
  | highVvelHeader (t : ℚ)
  | forceSpikeHeader (t : ℚ)
  | contextTable (df : DataFrame)
deriving DecidableEq

/-- The fixed column list of `print_problem_context`. -/
def problem_context_cols : List String := ["t", "altitude", "v_vel", "grounded", "hover_mag"]

/-- `print_problem_context(df)`: context windows (±0.3 s) around the first
high-velocity row and the first force-spike row, when they exist.  `none`
models the exception of `df["mass"].item(-1)` on an empty frame. -/
def print_problem_context (df : DataFrame) : Option (List CtxOut) :=
  match df.rows with
  | [] => none
  | r0 :: rest =>
    let weight := last_mass r0 rest * 9.81
    let highBlock : List CtxOut :=
      match (find_high_velocity df 15.0).rows with
      | [] => []
      | f :: _ =>
        [CtxOut.highVvelHeader f.t,
         CtxOut.contextTable ((get_context df f.t 0.3).select problem_context_cols)]
    let spikeBlock : List CtxOut :=
      match (find_force_spikes df weight 5.0).rows with
      | [] => []
      | f :: _ =>
        [CtxOut.forceSpikeHeader f.t,
         CtxOut.contextTable ((get_context df f.t 0.3).select problem_context_cols)]
    some (highBlock ++ spikeBlock)

/-- The parsed CLI arguments relevant to report selection: `--summary`,
`--context`, `--around <float>` (absent = `None`), `--window <float>`. -/
structure Args where
  summary : Bool
  context : Bool
  around : Option ℚ
  window : ℚ
deriving DecidableEq

/-- Python truthiness of `args.around` inside `any([...])`: `None` and `0.0`
are falsy, every other float is truthy. -/
def py_truthy_float : Option ℚ → Bool
  | none => false
  | some x => decide (x ≠ 0)

/-- One unit of `main`'s output: the error line or one reporter's output. -/
inductive MainOut where
  | errorLine (msg : String)
  | summaryReport (out : List SummaryOut)
  | contextReport (out : List CtxOut)
  | aroundReport (out : List AroundOut)
deriving DecidableEq

/-- `main()` after argument parsing: `fileExists` is whether `args.file`
exists, `df` is the frame `load_telemetry` would produce.  Returns the output
units in order and the exit status; `none` models an uncaught exception of a
reporter. -/
def run_main (fileExists : Bool) (file : String) (args : Args) (df : DataFrame) :
    Option (List MainOut × ℕ) :=
  if fileExists = false then
    some ([MainOut.errorLine ("Error: File not found: " ++ file)], 1)
  else
    let deflt := !(args.summary || args.context || py_truthy_float args.around)
    let doSummary := args.summary || deflt
    let doContext := args.context || deflt
    let summaryPart : Option (List MainOut) :=
      if doSummary then (print_summary df).map (fun l => [MainOut.summaryReport l]) else some []
    let contextPart : Option (List MainOut) :=
      if doContext then (print_problem_context df).map (fun l => [MainOut.contextReport l]) else some []
    let aroundPart : List MainOut :=
      match args.around with
      | none => []
      | some t => [MainOut.aroundReport (print_around_time df t args.window)]
    match summaryPart, contextPart with
    | some s, some c => some (s ++ c ++ aroundPart, 0)
    | _, _ => none

/-- A one-row frame used to instantiate theorems: grounded, positive altitude,
hover force 40 N, mass 1 kg (so weight 9.81 N), v_vel 0. -/
def sample_row : Row :=
  { t := 0, altitude := 1, v_vel := 0, speed := 0, hover_mag := 40,
    grounded := 1, pitch_deg := 0, mass := 1 }

/-- A loaded frame holding just `sample_row`. -/
def sample_df : DataFrame := ⟨telemetry_columns, [sample_row]⟩

/-- First row of the two-row launch example: `v_vel = 0`. -/
def launch_row_a : Row :=
  { t := 0, altitude := 0, v_vel := 0, speed := 0, hover_mag := 0,
    grounded := 0, pitch_deg := 0, mass := 1 }

/-- Second row of the two-row launch example: `v_vel = 11`. -/
def launch_row_b : Row :=
  { t := 1, altitude := 0, v_vel := 11, speed := 0, hover_mag := 0,
    grounded := 0, pitch_deg := 0, mass := 1 }

/-- The two-row frame with `v_vel` values `[0, 11]`. -/
def launch_df : DataFrame := ⟨telemetry_columns, [launch_row_a, launch_row_b]⟩

/-- A one-row frame whose `hover_mag` is negative. -/
def neg_hover_row : Row :=
  { t := 0, altitude := 0, v_vel := 0, speed := 0, hover_mag := -(3/2),
    grounded := 0, pitch_deg := 0, mass := 1 }

/-- A loaded frame holding just `neg_hover_row`. -/
def neg_hover_df : DataFrame := ⟨telemetry_columns, [neg_hover_row]⟩

/-- C1: `find_high_velocity(T, k)` returns exactly the rows of `T` whose
`v_vel` is strictly greater than `k` — a subsequence of `T`'s rows (original
order), with each qualifying row kept with its multiplicity and nothing else —
and it returns an empty table when no row qualifies. -/
theorem C1_find_high_velocity_exact (df : DataFrame) (k : ℚ) :
    ((find_high_velocity df k).rows).Sublist df.rows ∧
    (∀ r : Row, (find_high_velocity df k).rows.count r =
      if k < r.v_vel then df.rows.count r else 0) ∧
    ((∀ r ∈ df.rows, ¬ k < r.v_vel) → (find_high_velocity df k).rows = []) := by
  simp only [find_high_velocity, DataFrame.filter]
  refine ⟨List.filter_sublist df.rows, ?_, ?_⟩
  · intro r
    by_cases h : k < r.v_vel
    · rw [if_pos h]
      exact List.count_filter (by simpa using h)
    · rw [if_neg h]
      rw [List.count_eq_zero]
      intro hmem
      have h2 := (List.mem_filter.mp hmem).2
      simp only [decide_eq_true_eq] at h2
      exact h h2
  · intro hall
    refine List.filter_eq_nil_iff.mpr ?_
    intro a ha
    simpa using hall a ha

/-- C1 witness: on `sample_df` no row has `v_vel > 15`, and the result is the
empty table. -/
theorem C1_witness :
    (∀ r ∈ sample_df.rows, ¬ (15:ℚ) < r.v_vel) ∧
    (find_high_velocity sample_df 15).rows = [] :=
  ⟨by norm_num [sample_df, sample_row],
   (C1_find_high_velocity_exact sample_df 15).2.2 (by norm_num [sample_df, sample_row])⟩

/-- C2 counterexample: with the negative weight `-1`, raising the ratio from
`1` to `2` lowers the threshold `w*r`, so the result grows: the claim's
monotonic-narrowing clause, quantified over every weight, is false. -/
theorem C2_counterexample :
    (1:ℚ) ≤ 2 ∧
    (find_force_spikes neg_hover_df (-1) 1).rows.length <
      (find_force_spikes neg_hover_df (-1) 2).rows.length := by
  constructor
  · norm_num
  · norm_num [find_force_spikes, neg_hover_df, neg_hover_row, DataFrame.filter, List.filter]

/-- C2 (amended): for every weight `w` (also negative or zero),
`find_force_spikes(T, w, r)` returns exactly the rows with `hover_mag > w*r`;
and for a nonnegative weight `w`, raising the ratio from `r` to `r' ≥ r`
never increases the number of returned rows. -/
theorem C2_find_force_spikes (df : DataFrame) (w r r' : ℚ) :
    (∀ row : Row, row ∈ (find_force_spikes df w r).rows ↔
      row ∈ df.rows ∧ w * r < row.hover_mag) ∧
    (∀ row : Row, (find_force_spikes df w r).rows.count row =
      if w * r < row.hover_mag then df.rows.count row else 0) ∧
    (0 ≤ w → r ≤ r' →
      (find_force_spikes df w r').rows.length ≤ (find_force_spikes df w r).rows.length) := by
  simp only [find_force_spikes, DataFrame.filter]
  refine ⟨?_, ?_, ?_⟩
  · intro row
    rw [List.mem_filter]
    simp only [decide_eq_true_eq]
  · intro row
    by_cases h : w * r < row.hover_mag
    · rw [if_pos h]
      exact List.count_filter (by simpa using h)
    · rw [if_neg h]
      rw [List.count_eq_zero]
      intro hmem
      have h2 := (List.mem_filter.mp hmem).2
      simp only [decide_eq_true_eq] at h2
      exact h h2
  · intro hw hr
    refine List.Sublist.length_le ?_
    refine List.monotone_filter_right df.rows ?_
    intro a ha
    simp only [decide_eq_true_eq] at ha ⊢
    calc w * r ≤ w * r' := mul_le_mul_of_nonneg_left hr hw
    _ < a.hover_mag := ha

/-- C2 witness: instantiation at `sample_df`, weight `1`, ratios `1 ≤ 2`,
with the monotonicity hypotheses discharged concretely. -/
theorem C2_witness :
    ((0:ℚ) ≤ 1 ∧ (1:ℚ) ≤ 2) ∧
    ((∀ row : Row, row ∈ (find_force_spikes sample_df 1 1).rows ↔
        row ∈ sample_df.rows ∧ (1:ℚ) * 1 < row.hover_mag) ∧
     (∀ row : Row, (find_force_spikes sample_df 1 1).rows.count row =
        if (1:ℚ) * 1 < row.hover_mag then sample_df.rows.count row else 0) ∧
     (find_force_spikes sample_df 1 2).rows.length ≤
        (find_force_spikes sample_df 1 1).rows.length) :=
  ⟨⟨by norm_num, by norm_num⟩,
   (C2_find_force_spikes sample_df 1 1 2).1,
   (C2_find_force_spikes sample_df 1 1 2).2.1,
   (C2_find_force_spikes sample_df 1 1 2).2.2 (by norm_num) (by norm_num)⟩

/-- C3: every row returned by `get_context(T, c, w)` has
`c - w ≤ t ≤ c + w`, and widening the window from `w` to `w' ≥ w` keeps the
old result as a subsequence of the new one. -/
theorem C3_get_context (df : DataFrame) (c w w' : ℚ)
    (_hw : 0 ≤ w) (hww : w ≤ w') :
    (∀ r ∈ (get_context df c w).rows, c - w ≤ r.t ∧ r.t ≤ c + w) ∧
    ((get_context df c w).rows).Sublist ((get_context df c w').rows) := by
  simp only [get_context, DataFrame.filter]
  constructor
  · intro r hr
    have h2 := (List.mem_filter.mp hr).2
    simp only [Bool.and_eq_true, decide_eq_true_eq, ge_iff_le] at h2
    exact h2
  · refine List.monotone_filter_right df.rows ?_
    intro a ha
    simp only [Bool.and_eq_true, decide_eq_true_eq, ge_iff_le] at ha ⊢
    constructor
    · calc c - w' ≤ c - w := by linarith
      _ ≤ a.t := ha.1
    · calc a.t ≤ c + w := ha.2
      _ ≤ c + w' := by linarith

/-- C3 witness: instantiation at `sample_df`, centre `0`, windows `1 ≤ 2`. -/
theorem C3_witness :
    ((0:ℚ) ≤ 1 ∧ (1:ℚ) ≤ 2) ∧
    ((∀ r ∈ (get_context sample_df 0 1).rows, (0:ℚ) - 1 ≤ r.t ∧ r.t ≤ 0 + 1) ∧
     ((get_context sample_df 0 1).rows).Sublist ((get_context sample_df 0 2).rows)) :=
  ⟨⟨by norm_num, by norm_num⟩,
   C3_get_context sample_df 0 1 2 (by norm_num) (by norm_num)⟩

/-- Dropping the derived `v_vel_delta` value from the diff-annotated rows
recovers the original rows. -/
theorem diff_column_map_base (prev : Option ℚ) (l : List Row) :
    (diff_column prev l).map LaunchRow.base = l := by
  induction l generalizing prev with
  | nil => rfl
  | cons r rs ih => simp [diff_column, ih]

/-- C5 counterexample: `find_launches` does not return a frame with the same
columns as its input — `with_columns` adds the derived `v_vel_delta` column,
so on `launch_df` the output columns are the input's eight plus
`"v_vel_delta"` — and it actually returns a (non-empty) augmented row. -/
theorem C5_counterexample :
    (find_launches launch_df 10).columns = launch_df.columns ++ ["v_vel_delta"] ∧
    (find_launches launch_df 10).columns ≠ launch_df.columns ∧
    (find_launches launch_df 10).rows.length = 1 := by
  refine ⟨?_, ?_, ?_⟩
  · simp only [find_launches, with_v_vel_delta]
    rw [if_neg (by decide)]
  · intro h
    have hlen := congrArg List.length h
    simp only [find_launches, with_v_vel_delta, launch_df, telemetry_columns] at hlen
    rw [if_neg (by decide)] at hlen
    norm_num at hlen
  · norm_num [find_launches, with_v_vel_delta, diff_column, launch_df, launch_row_a,
      launch_row_b, null_gt, List.filter]

/-- C5 (amended): every detector is pure and returns a filtered selection of
the input's rows in the original order; `find_high_velocity`,
`find_force_spikes` and `get_context` keep exactly the input's columns, while
`find_launches` returns the qualifying rows augmented with the derived
`v_vel_delta` column: its rows project onto a subsequence of the input and,
whenever the input does not already carry a `v_vel_delta` column, its column
list is exactly the input's with `"v_vel_delta"` appended. -/
theorem C5_detectors_subtables (df : DataFrame) (k kl w r c win : ℚ) :
    ((find_high_velocity df k).rows).Sublist df.rows ∧
    (find_high_velocity df k).columns = df.columns ∧
    ((find_force_spikes df w r).rows).Sublist df.rows ∧
    (find_force_spikes df w r).columns = df.columns ∧
    ((get_context df c win).rows).Sublist df.rows ∧
    (get_context df c win).columns = df.columns ∧
    (((find_launches df kl).rows.map LaunchRow.base)).Sublist df.rows ∧
    ("v_vel_delta" ∉ df.columns →
      (find_launches df kl).columns = df.columns ++ ["v_vel_delta"]) := by
  refine ⟨List.filter_sublist _, rfl, List.filter_sublist _, rfl,
    List.filter_sublist _, rfl, ?_, ?_⟩
  · have h1 : (((with_v_vel_delta df).rows.filter
        (fun r2 => null_gt r2.v_vel_delta kl))).Sublist (with_v_vel_delta df).rows :=
      List.filter_sublist _
    have h2 := h1.map LaunchRow.base
    simpa [find_launches, with_v_vel_delta, diff_column_map_base] using h2
  · intro hmem
    simp only [find_launches, with_v_vel_delta]
    rw [if_neg hmem]

/-- C5 witness: on `launch_df`, whose header has no `v_vel_delta` column, the
`find_launches` output columns are the input's with `"v_vel_delta"` appended. -/
theorem C5_witness :
    ("v_vel_delta" ∉ launch_df.columns) ∧
    (find_launches launch_df 10).columns = launch_df.columns ++ ["v_vel_delta"] :=
  ⟨by decide,
   (C5_detectors_subtables launch_df 10 10 0 0 0 0).2.2.2.2.2.2.2 (by decide)⟩

/-- C8: on the two-row table with `v_vel` values `[0, 11]` and threshold 10,
`find_launches` returns exactly the second row, whose derived delta is 11;
the first row (delta null) is dropped. -/
theorem C8_find_launches_two_rows :
    launch_df.rows = [launch_row_a, launch_row_b] ∧
    (find_launches launch_df 10).rows = [⟨launch_row_b, some 11⟩] := by
  constructor
  · rfl
  · norm_num [find_launches, with_v_vel_delta, diff_column, launch_df, launch_row_a,
      launch_row_b, null_gt, List.filter]

/-- Two mutually exclusive filters select at most all the rows. -/
theorem length_filter_two_le {α : Type} (p q : α → Bool) (l : List α)
    (hdisj : ∀ a : α, ¬(p a = true ∧ q a = true)) :
    (l.filter p).length + (l.filter q).length ≤ l.length := by
  induction l with
  | nil => simp
  | cons a l2 ih =>
    by_cases hp : p a = true
    · have hq : q a = false := by
        cases hqv : q a
        · rfl
        · exact absurd ⟨hp, hqv⟩ (hdisj a)
      simp only [List.filter_cons, hp, if_true, hq, Bool.false_eq_true, if_false,
        List.length_cons]
      omega
    · have hp2 : p a = false := Bool.eq_false_iff.mpr hp
      by_cases hq : q a = true
      · simp only [List.filter_cons, hp2, Bool.false_eq_true, if_false, hq, if_true,
          List.length_cons]
        omega
      · have hq2 : q a = false := Bool.eq_false_iff.mpr hq
        simp only [List.filter_cons, hp2, hq2, Bool.false_eq_true, if_false,
          List.length_cons]
        omega

/-- If some row passes neither of two mutually exclusive filters, the two
filters together select strictly fewer than all the rows. -/
theorem length_filter_two_lt {α : Type} (p q : α → Bool) (l : List α) (x : α)
    (hx : x ∈ l) (hpx : p x = false) (hqx : q x = false)
    (hdisj : ∀ a : α, ¬(p a = true ∧ q a = true)) :
    (l.filter p).length + (l.filter q).length < l.length := by
  induction l with
  | nil => cases hx
  | cons a l2 ih =>
    rcases List.mem_cons.mp hx with h | h
    · subst h
      simp only [List.filter_cons, hpx, hqx, Bool.false_eq_true, if_false,
        List.length_cons]
      have := length_filter_two_le p q l2 hdisj
      omega
    · have hlt := ih h
      by_cases hp : p a = true
      · have hq : q a = false := by
          cases hqv : q a
          · rfl
          · exact absurd ⟨hp, hqv⟩ (hdisj a)
        simp only [List.filter_cons, hp, if_true, hq, Bool.false_eq_true, if_false,
          List.length_cons]
        omega
      · have hp2 : p a = false := Bool.eq_false_iff.mpr hp
        by_cases hq : q a = true
        · simp only [List.filter_cons, hp2, Bool.false_eq_true, if_false, hq, if_true,
            List.length_cons]
          omega
        · have hq2 : q a = false := Bool.eq_false_iff.mpr hq
          simp only [List.filter_cons, hp2, hq2, Bool.false_eq_true, if_false,
            List.length_cons]
          omega

/-- C10: a row whose altitude is exactly 0 is counted neither among the
valid-altitude rows (altitude > 0 required) nor among the no-raycast rows
(altitude < 0 required), so the two reported counts together fall strictly
short of the sample count. -/
theorem C10_altitude_zero_uncounted (df : DataFrame) (x : Row)
    (hx : x ∈ df.rows) (h0 : x.altitude = 0) :
    x ∉ (valid_alt df).rows ∧ x ∉ (no_raycast df).rows ∧
    (valid_alt df).rows.length + (no_raycast df).rows.length < df.rows.length := by
  simp only [valid_alt, no_raycast, DataFrame.filter]
  have hp : (fun r : Row => decide (r.altitude > 0)) x = false := by simp [h0]
  have hq : (fun r : Row => decide (r.altitude < 0)) x = false := by simp [h0]
  have hdisj : ∀ a : Row, ¬((fun r : Row => decide (r.altitude > 0)) a = true ∧
      (fun r : Row => decide (r.altitude < 0)) a = true) := by
    intro a ha
    simp only [decide_eq_true_eq] at ha
    linarith [ha.1, ha.2]
  refine ⟨?_, ?_, length_filter_two_lt _ _ df.rows x hx hp hq hdisj⟩
  · intro hmem
    have h2 := (List.mem_filter.mp hmem).2
    simp only [decide_eq_true_eq] at h2
    rw [h0] at h2
    exact lt_irrefl 0 h2
  · intro hmem
    have h2 := (List.mem_filter.mp hmem).2
    simp only [decide_eq_true_eq] at h2
    rw [h0] at h2
    exact lt_irrefl 0 h2

/-- A row with altitude exactly 0. -/
def alt_zero_row : Row :=
  { t := 0, altitude := 0, v_vel := 0, speed := 0, hover_mag := 0,
    grounded := 0, pitch_deg := 0, mass := 1 }

/-- A row with altitude 5. -/
def alt_pos_row : Row :=
  { t := 1, altitude := 5, v_vel := 0, speed := 0, hover_mag := 0,
    grounded := 0, pitch_deg := 0, mass := 1 }

/-- A row with the negative-altitude "no raycast hit" sentinel. -/
def alt_neg_row : Row :=
  { t := 2, altitude := -1, v_vel := 0, speed := 0, hover_mag := 0,
    grounded := 0, pitch_deg := 0, mass := 1 }

/-- A frame with altitudes 0, 5 and -1. -/
def alt_df : DataFrame := ⟨telemetry_columns, [alt_zero_row, alt_pos_row, alt_neg_row]⟩

/-- C10 witness: on `alt_df` the altitude-0 row is in neither filtered table
and 1 + 1 < 3. -/
theorem C10_witness :
    (alt_zero_row ∈ alt_df.rows ∧ alt_zero_row.altitude = 0) ∧
    (alt_zero_row ∉ (valid_alt alt_df).rows ∧ alt_zero_row ∉ (no_raycast alt_df).rows ∧
     (valid_alt alt_df).rows.length + (no_raycast alt_df).rows.length < alt_df.rows.length) :=
  ⟨⟨by simp [alt_df], rfl⟩,
   C10_altitude_zero_uncounted alt_df alt_zero_row (by simp [alt_df]) rfl⟩

/-- C9: when the context window is empty the around-time reporter prints only
the no-data message naming the requested time and returns; otherwise it prints
the header and the context frame restricted to the preferred columns
intersected with the frame's actual columns. -/
theorem C9_print_around_time (df : DataFrame) (c w : ℚ) :
    ((get_context df c w).rows = [] →
      print_around_time df c w = [AroundOut.noData c]) ∧
    ((get_context df c w).rows ≠ [] →
      print_around_time df c w =
        [AroundOut.header c w,
         AroundOut.tableOut
           ⟨around_preferred_cols.filter (fun s => decide (s ∈ df.columns)),
            (get_context df c w).rows⟩]) := by
  constructor
  · intro h
    simp [print_around_time, h]
  · intro h
    have hlen : ¬((List.filter (fun r => decide (r.t ≥ c - w) && decide (r.t ≤ c + w))
        df.rows).length = 0) := by
      simpa [get_context, DataFrame.filter, List.length_eq_zero] using h
    simp only [print_around_time, get_context, DataFrame.filter, DataFrame.select,
      if_neg hlen]

/-- C9 witness: around `t = 100` with window 0, `sample_df` has no rows and
the reporter prints exactly the no-data message. -/
theorem C9_witness :
    (get_context sample_df 100 0).rows = [] ∧
    print_around_time sample_df 100 0 = [AroundOut.noData 100] := by
  have h : (get_context sample_df 100 0).rows = [] := by
    norm_num [get_context, sample_df, sample_row, DataFrame.filter, List.filter]
  exact ⟨h, (C9_print_around_time sample_df 100 0).1 h⟩

/-- C7: on a missing input path `main` prints exactly one error line naming
the path, exits with the non-zero status 1, prints no report, and never reads
the parsed frame (the result does not depend on it). -/
theorem C7_missing_file (file : String) (args : Args) (df df' : DataFrame) :
    run_main false file args df =
      some ([MainOut.errorLine ("Error: File not found: " ++ file)], 1) ∧
    (1 : ℕ) ≠ 0 ∧
    run_main false file args df = run_main false file args df' :=
  ⟨rfl, by norm_num, rfl⟩

/-- `print_summary` finishes whenever the frame is non-empty, some row is
grounded, and the authoritative (last-row) mass is non-zero. -/
theorem print_summary_completes (df : DataFrame) (r0 : Row) (rest : List Row)
    (g0 : Row) (gs : List Row) (h1 : df.rows = r0 :: rest)
    (h2 : (grounded_rows df).rows = g0 :: gs) (h3 : last_mass r0 rest ≠ 0) :
    ∃ out, print_summary df = some out := by
  simp only [print_summary, h1, h2, if_neg h3]
  exact ⟨_, rfl⟩

/-- `print_problem_context` finishes whenever the frame is non-empty. -/
theorem print_problem_context_completes (df : DataFrame) (r0 : Row) (rest : List Row)
    (h1 : df.rows = r0 :: rest) :
    ∃ out, print_problem_context df = some out := by
  simp only [print_problem_context, h1]
  exact ⟨_, rfl⟩

/-- C6: with `--around 0.0` and neither `--summary` nor `--context`, `main`
evaluates `any([args.summary, args.context, args.around])` where the float
`0.0` is falsy, so it falls into the default branch and runs the summary and
problem-context reports in addition to the around-time report — not only the
around-time report. -/
theorem C6_around_zero_runs_all_reports :
    ∃ s c, run_main true "telemetry.csv"
        { summary := false, context := false, around := some 0, window := 1/2 }
        sample_df =
      some ([MainOut.summaryReport s, MainOut.contextReport c,
             MainOut.aroundReport (print_around_time sample_df 0 (1/2))], 0) := by
  have hg : (grounded_rows sample_df).rows = [sample_row] := by
    norm_num [grounded_rows, sample_df, sample_row, DataFrame.filter, List.filter]
  have hm : last_mass sample_row [] ≠ 0 := by
    norm_num [last_mass, sample_row]
  obtain ⟨s, hs⟩ := print_summary_completes sample_df sample_row [] sample_row [] rfl hg hm
  obtain ⟨c, hc⟩ := print_problem_context_completes sample_df sample_row [] rfl
  refine ⟨s, c, ?_⟩
  simp only [run_main, py_truthy_float, hs, hc]
  norm_num
/-- C4 (amended): the summary's problem-detection block invokes
`find_high_velocity` with 15.0 (its default) and `find_launches` with 10.0
(its default), but `find_force_spikes` with ratio 5.0, not its default 3.0:
each detection line appears exactly when the corresponding detector at those
thresholds matches, and it then carries that detector's match count. -/
theorem C4_detection_thresholds (df : DataFrame) (r0 : Row) (rest : List Row)
    (g0 : Row) (gs : List Row) (h1 : df.rows = r0 :: rest)
    (h2 : (grounded_rows df).rows = g0 :: gs) (h3 : last_mass r0 rest ≠ 0) :
    (15.0 : ℚ) = find_high_velocity_default_threshold ∧
    (10.0 : ℚ) = find_launches_default_threshold ∧
    (5.0 : ℚ) ≠ find_force_spikes_default_ratio ∧
    ∃ out, print_summary df = some out ∧
      (∀ n t v a, SummaryOut.highVelocityLine n t v a ∈ out →
        n = (find_high_velocity df 15.0).rows.length) ∧
      ((find_high_velocity df 15.0).rows ≠ [] →
        ∃ t v a, SummaryOut.highVelocityLine
          ((find_high_velocity df 15.0).rows.length) t v a ∈ out) ∧
      (∀ n t f x, SummaryOut.forceSpikesLine n t f x ∈ out →
        n = (find_force_spikes df (last_mass r0 rest * 9.81) 5.0).rows.length) ∧
      ((find_force_spikes df (last_mass r0 rest * 9.81) 5.0).rows ≠ [] →
        ∃ t f x, SummaryOut.forceSpikesLine
          ((find_force_spikes df (last_mass r0 rest * 9.81) 5.0).rows.length) t f x ∈ out) ∧
      (∀ n, SummaryOut.velocitySpikesLine n ∈ out →
        n = (find_launches df 10.0).rows.length) ∧
      ((find_launches df 10.0).rows ≠ [] →
        SummaryOut.velocitySpikesLine ((find_launches df 10.0).rows.length) ∈ out) := by
  refine ⟨by norm_num [find_high_velocity_default_threshold],
    by norm_num [find_launches_default_threshold],
    by norm_num [find_force_spikes_default_ratio], ?_⟩
  simp only [print_summary, h1, h2, if_neg h3]
  refine ⟨_, rfl, ?_, ?_, ?_, ?_, ?_, ?_⟩
  · intro n t v a hmem
    rcases hva : (valid_alt df).rows with _ | ⟨a0, as2⟩ <;>
      rcases hhv : (find_high_velocity df (15.0 : ℚ)).rows with _ | ⟨f1, fs1⟩ <;>
      rcases hfs : (find_force_spikes df (last_mass r0 rest * (9.81 : ℚ)) (5.0 : ℚ)).rows
        with _ | ⟨f2, fs2⟩ <;>
      rcases hla : (find_launches df (10.0 : ℚ)).rows with _ | ⟨f3, fs3⟩ <;>
      simp_all
  · intro hne
    rcases hhv : (find_high_velocity df (15.0 : ℚ)).rows with _ | ⟨f1, fs1⟩
    · exact absurd hhv hne
    · refine ⟨f1.t, f1.v_vel, f1.altitude, ?_⟩
      rcases hva : (valid_alt df).rows with _ | ⟨a0, as2⟩ <;>
        rcases hfs : (find_force_spikes df (last_mass r0 rest * (9.81 : ℚ)) (5.0 : ℚ)).rows
          with _ | ⟨f2, fs2⟩ <;>
        rcases hla : (find_launches df (10.0 : ℚ)).rows with _ | ⟨f3, fs3⟩ <;>
        simp_all
  · intro n t f x hmem
    rcases hva : (valid_alt df).rows with _ | ⟨a0, as2⟩ <;>
      rcases hhv : (find_high_velocity df (15.0 : ℚ)).rows with _ | ⟨f1, fs1⟩ <;>
      rcases hfs : (find_force_spikes df (last_mass r0 rest * (9.81 : ℚ)) (5.0 : ℚ)).rows
        with _ | ⟨f2, fs2⟩ <;>
      rcases hla : (find_launches df (10.0 : ℚ)).rows with _ | ⟨f3, fs3⟩ <;>
      simp_all
  · intro hne
    rcases hfs : (find_force_spikes df (last_mass r0 rest * (9.81 : ℚ)) (5.0 : ℚ)).rows
      with _ | ⟨f2, fs2⟩
    · exact absurd hfs hne
    · refine ⟨f2.t, f2.hover_mag, f2.hover_mag / (last_mass r0 rest * (9.81 : ℚ)), ?_⟩
      rcases hva : (valid_alt df).rows with _ | ⟨a0, as2⟩ <;>
        rcases hhv : (find_high_velocity df (15.0 : ℚ)).rows with _ | ⟨f1, fs1⟩ <;>
        rcases hla : (find_launches df (10.0 : ℚ)).rows with _ | ⟨f3, fs3⟩ <;>
        simp_all
  · intro n hmem
    rcases hva : (valid_alt df).rows with _ | ⟨a0, as2⟩ <;>
      rcases hhv : (find_high_velocity df (15.0 : ℚ)).rows with _ | ⟨f1, fs1⟩ <;>
      rcases hfs : (find_force_spikes df (last_mass r0 rest * (9.81 : ℚ)) (5.0 : ℚ)).rows
        with _ | ⟨f2, fs2⟩ <;>
      rcases hla : (find_launches df (10.0 : ℚ)).rows with _ | ⟨f3, fs3⟩ <;>
      simp_all
  · intro hne
    rcases hla : (find_launches df (10.0 : ℚ)).rows with _ | ⟨f3, fs3⟩
    · exact absurd hla hne
    · rcases hva : (valid_alt df).rows with _ | ⟨a0, as2⟩ <;>
        rcases hhv : (find_high_velocity df (15.0 : ℚ)).rows with _ | ⟨f1, fs1⟩ <;>
        rcases hfs : (find_force_spikes df (last_mass r0 rest * (9.81 : ℚ)) (5.0 : ℚ)).rows
          with _ | ⟨f2, fs2⟩ <;>
        simp_all

/-- C4 counterexample: on `sample_df` (hover force 40 N, weight 9.81 N) the
detector at the default ratio 3.0 matches one row, yet the summary prints no
force-spike line at all — the problem-detection block did not invoke
`find_force_spikes` with its default threshold. -/
theorem C4_counterexample :
    (find_force_spikes sample_df (sample_row.mass * 9.81)
      find_force_spikes_default_ratio).rows.length = 1 ∧
    ∃ out, print_summary sample_df = some out ∧
      ∀ n t f x, SummaryOut.forceSpikesLine n t f x ∉ out := by
  constructor
  · norm_num [find_force_spikes, sample_df, sample_row, find_force_spikes_default_ratio,
      DataFrame.filter, List.filter]
  · have h1 : sample_df.rows = [sample_row] := rfl
    have hg : (grounded_rows sample_df).rows = [sample_row] := by
      norm_num [grounded_rows, sample_df, sample_row, DataFrame.filter, List.filter]
    have hm : last_mass sample_row [] ≠ 0 := by norm_num [last_mass, sample_row]
    have hhv : (find_high_velocity sample_df (15.0 : ℚ)).rows = [] := by
      norm_num [find_high_velocity, sample_df, sample_row, DataFrame.filter, List.filter]
    have hfs : (find_force_spikes sample_df (last_mass sample_row [] * (9.81 : ℚ))
        (5.0 : ℚ)).rows = [] := by
      norm_num [find_force_spikes, sample_df, sample_row, last_mass,
        DataFrame.filter, List.filter]
    have hla : (find_launches sample_df (10.0 : ℚ)).rows = [] := by
      norm_num [find_launches, with_v_vel_delta, diff_column, sample_df, sample_row,
        null_gt, List.filter]
    have hva : (valid_alt sample_df).rows = [sample_row] := by
      norm_num [valid_alt, sample_df, sample_row, DataFrame.filter, List.filter]
    simp only [print_summary, h1, hg, if_neg hm, hva, hhv, hfs, hla]
    exact ⟨_, rfl, by simp⟩

/-- C4 witness: instantiation of the amended theorem at `sample_df`. -/
theorem C4_witness :
    (sample_df.rows = [sample_row] ∧ (grounded_rows sample_df).rows = [sample_row] ∧
     last_mass sample_row [] ≠ 0) ∧
    ((15.0 : ℚ) = find_high_velocity_default_threshold ∧
     (10.0 : ℚ) = find_launches_default_threshold ∧
     (5.0 : ℚ) ≠ find_force_spikes_default_ratio ∧
     ∃ out, print_summary sample_df = some out ∧
       (∀ n t v a, SummaryOut.highVelocityLine n t v a ∈ out →
         n = (find_high_velocity sample_df 15.0).rows.length) ∧
       ((find_high_velocity sample_df 15.0).rows ≠ [] →
         ∃ t v a, SummaryOut.highVelocityLine
           ((find_high_velocity sample_df 15.0).rows.length) t v a ∈ out) ∧
       (∀ n t f x, SummaryOut.forceSpikesLine n t f x ∈ out →
         n = (find_force_spikes sample_df (last_mass sample_row [] * 9.81) 5.0).rows.length) ∧
       ((find_force_spikes sample_df (last_mass sample_row [] * 9.81) 5.0).rows ≠ [] →
         ∃ t f x, SummaryOut.forceSpikesLine
           ((find_force_spikes sample_df (last_mass sample_row [] * 9.81) 5.0).rows.length)
           t f x ∈ out) ∧
       (∀ n, SummaryOut.velocitySpikesLine n ∈ out →
         n = (find_launches sample_df 10.0).rows.length) ∧
       ((find_launches sample_df 10.0).rows ≠ [] →
         SummaryOut.velocitySpikesLine ((find_launches sample_df 10.0).rows.length) ∈ out)) :=
  ⟨⟨rfl,
    by norm_num [grounded_rows, sample_df, sample_row, DataFrame.filter, List.filter],
    by norm_num [last_mass, sample_row]⟩,
   C4_detection_thresholds sample_df sample_row [] sample_row [] rfl
     (by norm_num [grounded_rows, sample_df, sample_row, DataFrame.filter, List.filter])
     (by norm_num [last_mass, sample_row])⟩
